import Mathlib

/-!
Verification of the go-webrtc signaling relay and client negotiation logic.

The embedding follows the two Go source files:
  * `server/server.go` — a websocket relay: a registry of connected clients
    (`clients`, a map keyed by the connection handle), a per-connection read
    loop (`websocketHandler`), and `broadcastMessage`, which writes the raw
    frame to every registered client and unregisters/closes a client whose
    write fails.
  * `client/client.go` — the peer: `handleServerMessages` reads frames,
    drops frames that fail to JSON-decode, drops frames whose `uuid` equals
    the peer's own identity, and hands the rest to `handleSignal`, which
    applies an inbound session description (answering when it is an offer)
    and/or an inbound ICE candidate.

Frames are modelled as an inductive `Frame`: `good s` stands for a byte
frame that JSON-decodes to the signal `s`, `bad raw` for one that does not
decode.  The relay never decodes frames; the client decodes via
`parseSignal`.  The pion engine calls (`SetRemoteDescription`,
`CreateAnswer`, `SetLocalDescription`, `AddICECandidate`) are external
collaborators; they are modelled by an `Engine` record of oracles saying
whether each call succeeds and what answer SDP `CreateAnswer` produces,
since the Go code only branches on their success.
-/

namespace GoWebrtc

/-- `webrtc.SDPType`, restricted to the two values the code mentions. -/
inductive SDPType where
  | offer
  | answer
deriving DecidableEq, Repr

/-- `webrtc.SessionDescription`: a type tag plus the opaque SDP payload. -/
structure SessionDescription where
  sdpType : SDPType
  sdp : String
deriving DecidableEq, Repr

/-- `webrtc.ICECandidateInit`: the opaque candidate payload. -/
structure ICECandidateInit where
  candidate : String
  sdpMid : String
  sdpMLineIndex : Nat
deriving DecidableEq, Repr

/-- The `Signal` struct of `client.go`: optional `sdp`, optional `ice`,
and the sender's identity `uuid`. -/
structure Signal where
  sdp : Option SessionDescription
  ice : Option ICECandidateInit
  uuid : String
deriving DecidableEq, Repr

/-- A raw wire frame: `good s` is a byte sequence that JSON-decodes to the
signal `s`; `bad raw` is a byte sequence that does not decode. -/
inductive Frame where
  | good (s : Signal)
  | bad (raw : String)
deriving DecidableEq, Repr

/-- `json.Unmarshal` into `Signal`, as used in `handleServerMessages`. -/
def parseSignal : Frame → Option Signal
  | Frame.good s => some s
  | Frame.bad _ => none

/-! ## Server (`server/server.go`) -/

/-- A `*websocket.Conn`: the handle identity (`id`, standing for the Go
pointer, which keys the `clients` map) together with the identity the peer
behind it uses in its signals.  The server never reads `peerUuid`; it is
carried only so that claims about identities can be stated. -/
structure Conn where
  id : Nat
  peerUuid : String
deriving DecidableEq, Repr

/-- The outcome of one `broadcastMessage` call: the registry after the
call, the successful writes in order (each the written frame paired with
its target), and the connections closed because their write failed.
`broadcastMessage` returns nothing to its caller, so no field reports an
error to the sender. -/
structure BroadcastResult where
  clients : List Conn
  writes : List (Conn × Frame)
  closed : List Conn
deriving DecidableEq, Repr

/-- `broadcastMessage` of `server.go`: write the frame to every registered
client; on a write error, close that client and delete it from the
registry, and continue with the rest.  The registry (a Go map) is modelled
as a list iterated in order; `writeOk` says whether the write to a given
connection succeeds. -/
def broadcastMessage (writeOk : Conn → Bool) (clients : List Conn) (message : Frame) :
    BroadcastResult :=
  match clients with
  | [] => { clients := [], writes := [], closed := [] }
  | c :: rest =>
      let r := broadcastMessage writeOk rest message
      if writeOk c then
        { clients := c :: r.clients, writes := (c, message) :: r.writes, closed := r.closed }
      else
        { clients := r.clients, writes := r.writes, closed := c :: r.closed }

/-- The body of one iteration of `websocketHandler`'s read loop, after a
successful read: log the frame and call `broadcastMessage`.  The handler
passes only the payload; its own connection (`sender`) is not excluded
from the fan-out. -/
def relayFrame (writeOk : Conn → Bool) (clients : List Conn) (sender : Conn)
    (message : Frame) : BroadcastResult :=
  broadcastMessage writeOk clients message

/-- `clients[ws] = true` in `websocketHandler`: registration keyed by the
connection handle.  It always succeeds and inspects no identity. -/
def registerClient (clients : List Conn) (ws : Conn) : List Conn :=
  if ws ∈ clients then clients else clients ++ [ws]

/-- `websocketHandler`'s read loop: each element of the input is one read
result (`some f` a frame, `none` a read error).  A frame is relayed via
`broadcastMessage`; a read error unregisters the reader and breaks the
loop.  Returns the final registry and all writes performed. -/
def websocketLoop (writeOk : Conn → Bool) (sender : Conn) (clients : List Conn) :
    List (Option Frame) → List Conn × List (Conn × Frame)
  | [] => (clients, [])
  | none :: _ => (clients.erase sender, [])
  | some f :: rest =>
      let r := broadcastMessage writeOk clients f
      let rec_result := websocketLoop writeOk sender r.clients rest
      (rec_result.1, r.writes ++ rec_result.2)

/-! ## Client (`client/client.go`) -/

/-- The observable state of a `*webrtc.PeerConnection` as far as the
client code manipulates it: the remote and local descriptions that have
been set, and the ICE candidates applied so far, in application order. -/
structure PCState where
  remoteDescription : Option SessionDescription
  localDescription : Option SessionDescription
  appliedCandidates : List ICECandidateInit
deriving DecidableEq, Repr

/-- A freshly created peer connection (`webrtc.NewPeerConnection`):
no descriptions set, no candidates applied. -/
def PCState.init : PCState :=
  { remoteDescription := none, localDescription := none, appliedCandidates := [] }

/-- The external pion engine, as oracles for the four calls the client
makes.  Each oracle may consult the current connection state, mirroring
that the real calls can fail depending on signaling state; the Go code
only branches on whether the call returned an error.  `createAnswer`
returns the SDP payload of the constructed answer, or `none` on failure. -/
structure Engine where
  setRemoteOk : PCState → SessionDescription → Bool
  createAnswer : PCState → Option String
  setLocalOk : PCState → SessionDescription → Bool
  addCandidateOk : PCState → ICECandidateInit → Bool

/-- The client's global mutable state: `peerConnection`, which is `none`
until `start` has run. -/
structure ClientState where
  pc : Option PCState
deriving DecidableEq, Repr

/-- `pc.AddICECandidate(*signal.ICE)` guarded by `signal.ICE != nil`: on
success the candidate is appended to the applied sequence; on failure the
error is logged and the state is unchanged. -/
def addICECandidate (eng : Engine) (st : ClientState) (ice : Option ICECandidateInit) :
    ClientState :=
  match ice, st.pc with
  | some cand, some p =>
      if eng.addCandidateOk p cand then
        { pc := some { p with appliedCandidates := p.appliedCandidates ++ [cand] } }
      else st
  | _, _ => st

/-- `handleSignal` of `client.go`.  If `peerConnection` is nil it is first
created via `start(false, config)`, which sets no descriptions.  Then the
SDP part: `SetRemoteDescription`; if that fails, log and return (the ICE
part is skipped).  If the description is an offer: `CreateAnswer`,
`SetLocalDescription`, and send `Signal{SDP: &answer, UUID: uuid}`; a
failure of either logs and returns.  Finally the ICE part via
`AddICECandidate`.  Returns the new client state and the signals sent. -/
def handleSignal (eng : Engine) (uuid : String) (st : ClientState) (signal : Signal) :
    ClientState × List Signal :=
  let p0 := match st.pc with
    | some p => p
    | none => PCState.init
  match signal.sdp with
  | none => (addICECandidate eng { pc := some p0 } signal.ice, [])
  | some desc =>
      if eng.setRemoteOk p0 desc then
        let p1 : PCState := { p0 with remoteDescription := some desc }
        if desc.sdpType = SDPType.offer then
          match eng.createAnswer p1 with
          | none => ({ pc := some p1 }, [])
          | some a =>
              let ans : SessionDescription := { sdpType := SDPType.answer, sdp := a }
              if eng.setLocalOk p1 ans then
                let p2 : PCState := { p1 with localDescription := some ans }
                (addICECandidate eng { pc := some p2 } signal.ice,
                  [{ sdp := some ans, ice := none, uuid := uuid }])
              else ({ pc := some p1 }, [])
        else (addICECandidate eng { pc := some p1 } signal.ice, [])
      else ({ pc := some p0 }, [])

/-- One iteration of `handleServerMessages` after a successful read: a
frame that fails to decode is logged and dropped (`continue`); a decoded
signal whose `uuid` equals the client's own identity is skipped
(`continue`); otherwise `handleSignal` runs. -/
def processFrame (eng : Engine) (uuid : String) (st : ClientState) (frame : Frame) :
    ClientState × List Signal :=
  match parseSignal frame with
  | none => (st, [])
  | some signal =>
      if signal.uuid = uuid then (st, [])
      else handleSignal eng uuid st signal

/-- `handleServerMessages`' read loop over a sequence of inbound frames:
processes each in turn, accumulating the signals sent in order. -/
def handleServerMessages (eng : Engine) (uuid : String) (st : ClientState) :
    List Frame → ClientState × List Signal
  | [] => (st, [])
  | f :: fs =>
      let step := processFrame eng uuid st f
      let rest := handleServerMessages eng uuid step.1 fs
      (rest.1, step.2 ++ rest.2)

/-! ## Concrete fixtures used by counterexamples and witnesses -/

/-- An engine in which every pion call succeeds and `CreateAnswer`
produces the SDP payload `"answer-sdp"`. -/
def engAll : Engine :=
  { setRemoteOk := fun _ _ => true
    createAnswer := fun _ => some "answer-sdp"
    setLocalOk := fun _ _ => true
    addCandidateOk := fun _ _ => true }

/-- A connection whose peer uses identity `"aaa"`. -/
def connA : Conn := { id := 0, peerUuid := "aaa" }

/-- A connection whose peer uses identity `"bbb"`. -/
def connB : Conn := { id := 1, peerUuid := "bbb" }

/-- A sample candidate payload. -/
def cand0 : ICECandidateInit :=
  { candidate := "candidate:0 1 UDP 2122252543 192.0.2.1 54321 typ host"
    sdpMid := "0", sdpMLineIndex := 0 }

/-- A candidate-bearing signal from the peer with identity `"aaa"`. -/
def sigCandA : Signal := { sdp := none, ice := some cand0, uuid := "aaa" }

/-- An offer-bearing signal from the peer with identity `"aaa"`. -/
def sigOfferA : Signal :=
  { sdp := some { sdpType := SDPType.offer, sdp := "their-offer" }, ice := none, uuid := "aaa" }

/-- A frame carrying `sigCandA`. -/
def frameCandA : Frame := Frame.good sigCandA

/-- A frame that does not JSON-decode to a `Signal`. -/
def badFrame : Frame := Frame.bad "this is not json"

/-- The client state of a peer that has sent an offer and awaits the
answer: local description is an offer, remote description unset. -/
def stAwaitingAnswer : ClientState :=
  { pc := some { remoteDescription := none
                 localDescription := some { sdpType := SDPType.offer, sdp := "my-offer" }
                 appliedCandidates := [] } }

/-- Write gate used by witnesses: only the write to `connA` succeeds. -/
def wOkA : Conn → Bool := fun c => decide (c = connA)

/-- A second connection handle whose peer reuses identity `"aaa"`. -/
def connA2 : Conn := { id := 2, peerUuid := "aaa" }

/-- An answer-bearing signal from the peer with identity `"bbb"`. -/
def sigAnswerB : Signal :=
  { sdp := some { sdpType := SDPType.answer, sdp := "their-answer" }, ice := none, uuid := "bbb" }

/-- A signal carrying both an offer and a candidate (a shape the wire
format rules out) from the peer with identity `"aaa"`. -/
def sigOfferCandA : Signal :=
  { sdp := some { sdpType := SDPType.offer, sdp := "their-offer" }, ice := some cand0
    uuid := "aaa" }

/-- A signal carrying both an answer and a candidate from the peer with
identity `"bbb"`. -/
def sigAnswerCandB : Signal :=
  { sdp := some { sdpType := SDPType.answer, sdp := "their-answer" }, ice := some cand0
    uuid := "bbb" }

/-! ## Characterization lemmas (shared helpers) -/

/-- One fan-out step writes the frame to exactly the clients whose write
succeeds, keeps those in the registry, and closes the rest. -/
theorem broadcast_eq (writeOk : Conn → Bool) (cs : List Conn) (f : Frame) :
    broadcastMessage writeOk cs f =
      { clients := cs.filter writeOk
        writes := (cs.filter writeOk).map (fun c => (c, f))
        closed := cs.filter (fun c => !writeOk c) } := by
  induction cs with
  | nil => rfl
  | cons c rest ih =>
      simp only [broadcastMessage, ih]
      by_cases h : writeOk c <;> simp [h, List.filter_cons]

/-- Computation of `handleSignal` on an offer-bearing signal when every
engine call involved succeeds: the remote description is set, a local
answer is constructed and set, the answer signal tagged with the peer's
own identity is sent, and then the ICE part runs on the updated state. -/
theorem handleSignal_offer_case (eng : Engine) (u v : String) (st : ClientState)
    (p : PCState) (dIn : SessionDescription) (a : String) (ice : Option ICECandidateInit)
    (hpc : st.pc = some p) (hty : dIn.sdpType = SDPType.offer)
    (hsr : eng.setRemoteOk p dIn = true)
    (hca : eng.createAnswer { p with remoteDescription := some dIn } = some a)
    (hsl : eng.setLocalOk { p with remoteDescription := some dIn }
      { sdpType := SDPType.answer, sdp := a } = true) :
    handleSignal eng u st { sdp := some dIn, ice := ice, uuid := v } =
      (addICECandidate eng
        { pc := some { p with remoteDescription := some dIn,
                              localDescription := some { sdpType := SDPType.answer, sdp := a } } } ice,
        [{ sdp := some { sdpType := SDPType.answer, sdp := a }, ice := none, uuid := u }]) := by
  simp [handleSignal, hpc, hty, hsr, hca, hsl]

/-- Computation of `handleSignal` on an answer-bearing signal when
`SetRemoteDescription` succeeds: the remote description is set, nothing is
sent, and then the ICE part runs on the updated state. -/
theorem handleSignal_answer_case (eng : Engine) (u v : String) (st : ClientState)
    (p : PCState) (dIn : SessionDescription) (ice : Option ICECandidateInit)
    (hpc : st.pc = some p) (hty : dIn.sdpType = SDPType.answer)
    (hsr : eng.setRemoteOk p dIn = true) :
    handleSignal eng u st { sdp := some dIn, ice := ice, uuid := v } =
      (addICECandidate eng { pc := some { p with remoteDescription := some dIn } } ice, []) := by
  simp [handleSignal, hpc, hty, hsr]

/-! ## Claims about the relay (`server.go`) -/

/-- C1, counterexample: the claim says a message from peer P is delivered
to exactly the N−1 peers other than P and never back to the connection
whose identity equals the message's `uuid`.  With the two registered
connections `connA` and `connB`, a frame read from `connA` carrying
`uuid = "aaa"` (= `connA`'s peer identity) is written to BOTH connections,
`connA` included: `broadcastMessage` iterates over the whole registry and
excludes nobody. -/
theorem c1_counterexample :
    parseSignal frameCandA = some sigCandA ∧ sigCandA.uuid = connA.peerUuid ∧
    (relayFrame (fun _ => true) [connA, connB] connA frameCandA).writes =
      [(connA, frameCandA), (connB, frameCandA)] :=
  ⟨rfl, rfl, rfl⟩

/-- C1 (amended): in broadcast mode the router delivers the message to
all N currently-registered healthy clients, the sender included; the
self-filtering of messages whose `uuid` equals a peer's own identity is
performed by each receiving client (`processFrame` drops them), not by
the router. -/
theorem c1_broadcast_delivery :
    ∀ (writeOk : Conn → Bool) (clients : List Conn) (sender : Conn) (f : Frame),
      (∀ c ∈ clients, writeOk c = true) →
      ((relayFrame writeOk clients sender f).writes = clients.map (fun c => (c, f)) ∧
        ∀ (eng : Engine) (u : String) (st : ClientState) (s : Signal),
          s.uuid = u → processFrame eng u st (Frame.good s) = (st, [])) := by
  intro writeOk clients sender f h
  constructor
  · show (broadcastMessage writeOk clients f).writes = _
    rw [broadcast_eq]
    rw [List.filter_eq_self.mpr h]
  · intro eng u st s hs
    simp [processFrame, parseSignal, hs]

/-- Witness for C1 (amended) at the two-client registry. -/
theorem c1_broadcast_delivery_witness :
    (relayFrame (fun _ => true) [connA, connB] connA frameCandA).writes =
      [(connA, frameCandA), (connB, frameCandA)] ∧
    processFrame engAll "aaa" { pc := none } (Frame.good sigCandA) = ({ pc := none }, []) := by
  have h := c1_broadcast_delivery (fun _ => true) [connA, connB] connA frameCandA
    (by intro c _; rfl)
  exact ⟨h.1.trans rfl, h.2 engAll "aaa" { pc := none } sigCandA rfl⟩

/-- C6 (confirmed): every byte sequence written during a fan-out equals
the byte sequence read from the sender, and the routing outcome (targets,
surviving registry, closed connections) is the same for any two frames —
the router never inspects the payload. -/
theorem c6_passthrough :
    ∀ (writeOk : Conn → Bool) (clients : List Conn) (sender : Conn) (f g : Frame),
      (∀ pr ∈ (relayFrame writeOk clients sender f).writes, pr.2 = f) ∧
      (relayFrame writeOk clients sender f).writes.map Prod.fst =
        (relayFrame writeOk clients sender g).writes.map Prod.fst ∧
      (relayFrame writeOk clients sender f).clients =
        (relayFrame writeOk clients sender g).clients ∧
      (relayFrame writeOk clients sender f).closed =
        (relayFrame writeOk clients sender g).closed := by
  intro writeOk clients sender f g
  refine ⟨?_, ?_, ?_, ?_⟩ <;> simp only [relayFrame, broadcast_eq]
  · intro pr hpr
    obtain ⟨c, _, h⟩ := List.mem_map.mp hpr
    rw [← h]
  · simp [List.map_map, Function.comp]

/-- Witness for C6: a concrete write carries the original frame, and the
surviving registry is the same for a well-formed and a malformed frame. -/
theorem c6_passthrough_witness :
    (connB, frameCandA).2 = frameCandA ∧
    (relayFrame (fun _ => true) [connA, connB] connA frameCandA).clients =
      (relayFrame (fun _ => true) [connA, connB] connA badFrame).clients := by
  have h := c6_passthrough (fun _ => true) [connA, connB] connA frameCandA badFrame
  exact ⟨h.1 (connB, frameCandA) (by decide), h.2.2.1⟩

/-- C7 (confirmed): when the write to `bad` fails during a fan-out, `bad`
is removed from the registry and closed, every other registered client
whose write succeeds still receives the message, and nothing but copies of
the relayed frame is ever written — in particular no failure notification
is sent to anyone, and `broadcastMessage` returns nothing to the reading
goroutine, which continues its loop. -/
theorem c7_delivery_failure :
    ∀ (writeOk : Conn → Bool) (clients : List Conn) (sender : Conn) (f : Frame) (bad : Conn),
      bad ∈ clients → writeOk bad = false →
      (bad ∉ (relayFrame writeOk clients sender f).clients ∧
       bad ∈ (relayFrame writeOk clients sender f).closed ∧
       (∀ c ∈ clients, writeOk c = true → (c, f) ∈ (relayFrame writeOk clients sender f).writes) ∧
       (∀ pr ∈ (relayFrame writeOk clients sender f).writes, pr.2 = f)) := by
  intro writeOk clients sender f bad hmem hbad
  simp only [relayFrame, broadcast_eq]
  refine ⟨?_, ?_, ?_, ?_⟩
  · simp [List.mem_filter, hbad]
  · simp [List.mem_filter, hbad, hmem]
  · intro c hc hok
    exact List.mem_map.mpr ⟨c, List.mem_filter.mpr ⟨hc, hok⟩, rfl⟩
  · intro pr hpr
    obtain ⟨c, _, h⟩ := List.mem_map.mp hpr
    rw [← h]

/-- Witness for C7: with only the write to `connA` succeeding, `connB` is
unregistered and closed while `connA` still receives the frame. -/
theorem c7_delivery_failure_witness :
    connB ∉ (relayFrame wOkA [connA, connB] connA frameCandA).clients ∧
    connB ∈ (relayFrame wOkA [connA, connB] connA frameCandA).closed ∧
    (connA, frameCandA) ∈ (relayFrame wOkA [connA, connB] connA frameCandA).writes := by
  have h := c7_delivery_failure wOkA [connA, connB] connA frameCandA connB
    (by decide) (by decide)
  exact ⟨h.1, h.2.1, h.2.2.1 connA (by decide) (by decide)⟩

/-- C8, counterexample: the claim says a frame that cannot be parsed as a
signaling message "is not delivered or processed further".  The relay
never parses frames: `badFrame` does not decode to a `Signal`, yet the
relay delivers it to both registered clients. -/
theorem c8_counterexample :
    parseSignal badFrame = none ∧
    (relayFrame (fun _ => true) [connA, connB] connA badFrame).writes =
      [(connA, badFrame), (connB, badFrame)] :=
  ⟨rfl, rfl⟩

/-- C8 (amended): at the client, a frame that fails to decode is dropped
with a logged warning — no state change, no outbound message — and the
read loop continues with the subsequent frames; the relay, which never
parses, forwards such a frame to every registered healthy client like any
other message. -/
theorem c8_unparseable_frames :
    ∀ (eng : Engine) (u : String) (st : ClientState) (f : Frame) (fs : List Frame)
      (writeOk : Conn → Bool) (clients : List Conn) (sender : Conn),
      parseSignal f = none →
      (processFrame eng u st f = (st, []) ∧
       handleServerMessages eng u st (f :: fs) = handleServerMessages eng u st fs ∧
       ∀ c ∈ clients, writeOk c = true → (c, f) ∈ (relayFrame writeOk clients sender f).writes) := by
  intro eng u st f fs writeOk clients sender hf
  have hp : processFrame eng u st f = (st, []) := by simp [processFrame, hf]
  refine ⟨hp, ?_, ?_⟩
  · simp [handleServerMessages, hp]
  · intro c hc hok
    simp only [relayFrame, broadcast_eq]
    exact List.mem_map.mpr ⟨c, List.mem_filter.mpr ⟨hc, hok⟩, rfl⟩

/-- Witness for C8 (amended) at the malformed frame `badFrame`. -/
theorem c8_unparseable_frames_witness :
    processFrame engAll "aaa" { pc := none } badFrame = ({ pc := none }, []) ∧
    handleServerMessages engAll "aaa" { pc := none } [badFrame, frameCandA] =
      handleServerMessages engAll "aaa" { pc := none } [frameCandA] ∧
    (connB, badFrame) ∈ (relayFrame (fun _ => true) [connA, connB] connA badFrame).writes := by
  have h := c8_unparseable_frames engAll "aaa" { pc := none } badFrame [frameCandA]
    (fun _ => true) [connA, connB] connA rfl
  exact ⟨h.1, h.2.1, h.2.2 connB (by decide) rfl⟩

/-- C9, counterexample: the claim says a registration attempt with an
identity already present fails with `DuplicateIdentity` and disconnects
the connecting peer.  The registry is keyed by the connection handle and
never inspects identities: `connA2` carries the same peer identity as the
already-registered `connA`, yet registering it succeeds and both remain
registered. -/
theorem c9_counterexample :
    connA2.peerUuid = connA.peerUuid ∧ connA2 ≠ connA ∧
    registerClient (registerClient [] connA) connA2 = [connA, connA2] := by
  decide

/-- C9 (amended): registration (`clients[ws] = true`) always succeeds:
the connection being registered is in the registry afterwards, every
previously registered connection stays, and the result is either the old
registry (handle already present) or the old registry with the new handle
appended — there is no rejection or disconnect path, and no identity is
examined. -/
theorem c9_registration_always_succeeds :
    ∀ (clients : List Conn) (ws : Conn),
      ws ∈ registerClient clients ws ∧
      (∀ c ∈ clients, c ∈ registerClient clients ws) ∧
      (registerClient clients ws = clients ∨ registerClient clients ws = clients ++ [ws]) := by
  intro clients ws
  simp only [registerClient]
  by_cases h : ws ∈ clients
  · rw [if_pos h]
    exact ⟨h, fun c hc => hc, Or.inl rfl⟩
  · rw [if_neg h]
    exact ⟨by simp, fun c hc => by simp [hc], Or.inr rfl⟩

/-- Witness for C9 (amended): registering the duplicate-identity handle
`connA2` over `[connA]` keeps both connections registered. -/
theorem c9_registration_always_succeeds_witness :
    connA2 ∈ registerClient [connA] connA2 ∧ connA ∈ registerClient [connA] connA2 :=
  ⟨(c9_registration_always_succeeds [connA] connA2).1,
   (c9_registration_always_succeeds [connA] connA2).2.1 connA (by decide)⟩

/-! ## Claims about the client (`client.go`) -/

/-- C2 (confirmed): an inbound signaling message whose `uuid` equals the
receiving peer's own identity is skipped by `handleServerMessages`: the
negotiation state is unchanged and no outbound message is emitted. -/
theorem c2_self_messages_ignored (eng : Engine) (selfUuid : String) (st : ClientState)
    (s : Signal) (h : s.uuid = selfUuid) :
    processFrame eng selfUuid st (Frame.good s) = (st, []) := by
  simp [processFrame, parseSignal, h]

/-- Witness for C2 at a concrete self-tagged candidate message. -/
theorem c2_self_messages_ignored_witness :
    sigCandA.uuid = "aaa" ∧
      processFrame engAll "aaa" { pc := some PCState.init } (Frame.good sigCandA) =
        ({ pc := some PCState.init }, []) :=
  ⟨rfl, c2_self_messages_ignored engAll "aaa" { pc := some PCState.init } sigCandA rfl⟩

/-- C3, counterexample: the claim says a remote candidate is never applied
while the remote description is unset, earlier arrivals being buffered in
`pendingCandidates`.  There is no such buffer: with no remote description
set, an inbound candidate is applied immediately — the resulting state has
`remoteDescription = none` and the candidate already applied. -/
theorem c3_counterexample :
    (handleSignal engAll "bbb" { pc := some PCState.init } sigCandA).1 =
      { pc := some { remoteDescription := none, localDescription := none
                     appliedCandidates := [cand0] } } ∧
    (handleSignal engAll "bbb" { pc := some PCState.init } sigCandA).2 = [] :=
  ⟨rfl, rfl⟩

/-- C3 (amended): an inbound candidate is handed to `AddICECandidate`
immediately on arrival, whether or not a remote description is set; there
is no `pendingCandidates` buffer.  When the call succeeds the candidate is
appended to the applied sequence (so arrival order is application order),
and nothing is emitted; a failed call is logged and the candidate dropped. -/
theorem c3_candidates_applied_immediately (eng : Engine) (selfUuid senderUuid : String)
    (st : ClientState) (p : PCState) (cand : ICECandidateInit)
    (hpc : st.pc = some p) (hok : eng.addCandidateOk p cand = true) :
    handleSignal eng selfUuid st { sdp := none, ice := some cand, uuid := senderUuid } =
      ({ pc := some { p with appliedCandidates := p.appliedCandidates ++ [cand] } }, []) := by
  simp [handleSignal, hpc, addICECandidate, hok]

/-- Witness for C3 (amended): the candidate is applied while the remote
description is still unset. -/
theorem c3_candidates_applied_immediately_witness :
    handleSignal engAll "bbb" { pc := some PCState.init } sigCandA =
      ({ pc := some { remoteDescription := none, localDescription := none
                      appliedCandidates := [cand0] } }, []) :=
  c3_candidates_applied_immediately engAll "bbb" "aaa"
    { pc := some PCState.init } PCState.init cand0 rfl rfl

/-- C4, counterexample: the claim says the peer with the lexicographically
larger identity ignores a competing offer and keeps waiting for an answer.
Peer `"bbb"` (larger than the sender `"aaa"` as a byte sequence) holds an
outstanding local offer, yet on receiving the competing offer it sets it
as remote description, replaces its own outstanding offer by a local
answer, and emits a `description{answer}` — no identity comparison exists
in the code. -/
theorem c4_counterexample :
    ("aaa".data < "bbb".data) ∧
    handleSignal engAll "bbb" stAwaitingAnswer sigOfferA =
      ({ pc := some { remoteDescription := some { sdpType := SDPType.offer, sdp := "their-offer" }
                      localDescription := some { sdpType := SDPType.answer, sdp := "answer-sdp" }
                      appliedCandidates := [] } },
        [{ sdp := some { sdpType := SDPType.answer, sdp := "answer-sdp" }, ice := none
           uuid := "bbb" }]) :=
  ⟨by decide, rfl⟩

/-- C4 (amended): there is no glare resolution: `handleSignal` never
inspects the sender's identity (its outcome is invariant under changing
the signal's `uuid`), and a peer with an outstanding local offer that
receives a competing offer which the engine accepts always proceeds as
responder — it sets the offer as remote description, overwrites its own
outstanding offer with a local answer, and emits `description{answer}` —
regardless of which identity is lexicographically smaller. -/
theorem c4_no_glare_resolution :
    (∀ (eng : Engine) (u : String) (st : ClientState) (sdp : Option SessionDescription)
        (ice : Option ICECandidateInit) (v w : String),
        handleSignal eng u st { sdp := sdp, ice := ice, uuid := v } =
          handleSignal eng u st { sdp := sdp, ice := ice, uuid := w }) ∧
    (∀ (eng : Engine) (u v : String) (st : ClientState) (p : PCState)
        (d dIn : SessionDescription) (a : String),
        st.pc = some p →
        p.localDescription = some d → d.sdpType = SDPType.offer →
        p.remoteDescription = none →
        dIn.sdpType = SDPType.offer →
        eng.setRemoteOk p dIn = true →
        eng.createAnswer { p with remoteDescription := some dIn } = some a →
        eng.setLocalOk { p with remoteDescription := some dIn }
            { sdpType := SDPType.answer, sdp := a } = true →
        handleSignal eng u st { sdp := some dIn, ice := none, uuid := v } =
          ({ pc := some { p with remoteDescription := some dIn,
                                 localDescription :=
                                   some { sdpType := SDPType.answer, sdp := a } } },
            [{ sdp := some { sdpType := SDPType.answer, sdp := a }, ice := none, uuid := u }])) := by
  refine ⟨fun _ _ _ _ _ _ _ => rfl, ?_⟩
  intro eng u v st p d dIn a hpc _ _ _ hty hsr hca hsl
  rw [handleSignal_offer_case eng u v st p dIn a none hpc hty hsr hca hsl]
  rfl

/-- Witness for C4 (amended): the outcome for peer `"bbb"` is the same
whether the competing offer claims to come from `"aaa"` or from `"zzz"`,
and the concrete competing offer is answered. -/
theorem c4_no_glare_resolution_witness :
    handleSignal engAll "bbb" stAwaitingAnswer
        { sdp := some { sdpType := SDPType.offer, sdp := "their-offer" }, ice := none
          uuid := "aaa" } =
      handleSignal engAll "bbb" stAwaitingAnswer
        { sdp := some { sdpType := SDPType.offer, sdp := "their-offer" }, ice := none
          uuid := "zzz" } ∧
    handleSignal engAll "bbb" stAwaitingAnswer sigOfferA =
      ({ pc := some { remoteDescription := some { sdpType := SDPType.offer, sdp := "their-offer" }
                      localDescription := some { sdpType := SDPType.answer, sdp := "answer-sdp" }
                      appliedCandidates := [] } },
        [{ sdp := some { sdpType := SDPType.answer, sdp := "answer-sdp" }, ice := none
           uuid := "bbb" }]) :=
  ⟨c4_no_glare_resolution.1 engAll "bbb" stAwaitingAnswer _ _ "aaa" "zzz",
   c4_no_glare_resolution.2 engAll "bbb" "aaa" stAwaitingAnswer
     { remoteDescription := none
       localDescription := some { sdpType := SDPType.offer, sdp := "my-offer" }
       appliedCandidates := [] }
     { sdpType := SDPType.offer, sdp := "my-offer" }
     { sdpType := SDPType.offer, sdp := "their-offer" }
     "answer-sdp" rfl rfl rfl rfl rfl rfl rfl rfl⟩

/-- C5 (confirmed): an inbound `description{offer}` whose engine calls
succeed is set as remote description, a local answer is constructed and
set, and a `description{answer}` tagged with the peer's own identity `u`
is emitted; an inbound `description{answer}` is set as remote description
and nothing is emitted. -/
theorem c5_description_messages :
    (∀ (eng : Engine) (u v : String) (st : ClientState) (p : PCState)
        (dIn : SessionDescription) (a : String),
        st.pc = some p → dIn.sdpType = SDPType.offer →
        eng.setRemoteOk p dIn = true →
        eng.createAnswer { p with remoteDescription := some dIn } = some a →
        eng.setLocalOk { p with remoteDescription := some dIn }
            { sdpType := SDPType.answer, sdp := a } = true →
        handleSignal eng u st { sdp := some dIn, ice := none, uuid := v } =
          ({ pc := some { p with remoteDescription := some dIn,
                                 localDescription :=
                                   some { sdpType := SDPType.answer, sdp := a } } },
            [{ sdp := some { sdpType := SDPType.answer, sdp := a }, ice := none, uuid := u }])) ∧
    (∀ (eng : Engine) (u v : String) (st : ClientState) (p : PCState)
        (dIn : SessionDescription),
        st.pc = some p → dIn.sdpType = SDPType.answer →
        eng.setRemoteOk p dIn = true →
        handleSignal eng u st { sdp := some dIn, ice := none, uuid := v } =
          ({ pc := some { p with remoteDescription := some dIn } }, [])) := by
  constructor
  · intro eng u v st p dIn a hpc hty hsr hca hsl
    rw [handleSignal_offer_case eng u v st p dIn a none hpc hty hsr hca hsl]
    rfl
  · intro eng u v st p dIn hpc hty hsr
    rw [handleSignal_answer_case eng u v st p dIn none hpc hty hsr]
    rfl

/-- Witness for C5 at a concrete offer and a concrete answer. -/
theorem c5_description_messages_witness :
    handleSignal engAll "bbb" { pc := some PCState.init } sigOfferA =
      ({ pc := some { remoteDescription := some { sdpType := SDPType.offer, sdp := "their-offer" }
                      localDescription := some { sdpType := SDPType.answer, sdp := "answer-sdp" }
                      appliedCandidates := [] } },
        [{ sdp := some { sdpType := SDPType.answer, sdp := "answer-sdp" }, ice := none
           uuid := "bbb" }]) ∧
    handleSignal engAll "aaa" { pc := some PCState.init } sigAnswerB =
      ({ pc := some { remoteDescription := some { sdpType := SDPType.answer, sdp := "their-answer" }
                      localDescription := none, appliedCandidates := [] } }, []) :=
  ⟨c5_description_messages.1 engAll "bbb" "aaa" { pc := some PCState.init } PCState.init
     { sdpType := SDPType.offer, sdp := "their-offer" } "answer-sdp" rfl rfl rfl rfl rfl,
   c5_description_messages.2 engAll "aaa" "bbb" { pc := some PCState.init } PCState.init
     { sdpType := SDPType.answer, sdp := "their-answer" } rfl rfl rfl⟩

/-- C10 (confirmed): a frame carrying both a description and a candidate
is fully processed rather than rejected: the description is applied first
(`CreateAnswer`/`SetLocalDescription` and an emitted answer when it is an
offer), and the candidate is then applied to the post-description state —
visible in that the `addCandidateOk` oracle is consulted at the state with
the remote description already set. -/
theorem c10_sdp_and_ice_both_processed :
    (∀ (eng : Engine) (u v : String) (st : ClientState) (p : PCState)
        (dIn : SessionDescription) (a : String) (cand : ICECandidateInit),
        st.pc = some p → dIn.sdpType = SDPType.offer →
        eng.setRemoteOk p dIn = true →
        eng.createAnswer { p with remoteDescription := some dIn } = some a →
        eng.setLocalOk { p with remoteDescription := some dIn }
            { sdpType := SDPType.answer, sdp := a } = true →
        eng.addCandidateOk
            { p with remoteDescription := some dIn,
                     localDescription := some { sdpType := SDPType.answer, sdp := a } }
            cand = true →
        handleSignal eng u st { sdp := some dIn, ice := some cand, uuid := v } =
          ({ pc := some { p with remoteDescription := some dIn,
                                 localDescription :=
                                   some { sdpType := SDPType.answer, sdp := a },
                                 appliedCandidates := p.appliedCandidates ++ [cand] } },
            [{ sdp := some { sdpType := SDPType.answer, sdp := a }, ice := none, uuid := u }])) ∧
    (∀ (eng : Engine) (u v : String) (st : ClientState) (p : PCState)
        (dIn : SessionDescription) (cand : ICECandidateInit),
        st.pc = some p → dIn.sdpType = SDPType.answer →
        eng.setRemoteOk p dIn = true →
        eng.addCandidateOk { p with remoteDescription := some dIn } cand = true →
        handleSignal eng u st { sdp := some dIn, ice := some cand, uuid := v } =
          ({ pc := some { p with remoteDescription := some dIn,
                                 appliedCandidates := p.appliedCandidates ++ [cand] } }, [])) := by
  constructor
  · intro eng u v st p dIn a cand hpc hty hsr hca hsl hadd
    rw [handleSignal_offer_case eng u v st p dIn a (some cand) hpc hty hsr hca hsl]
    simp [addICECandidate, hadd]
  · intro eng u v st p dIn cand hpc hty hsr hadd
    rw [handleSignal_answer_case eng u v st p dIn (some cand) hpc hty hsr]
    simp [addICECandidate, hadd]

/-- Witness for C10 at concrete offer+candidate and answer+candidate
frames. -/
theorem c10_sdp_and_ice_both_processed_witness :
    handleSignal engAll "bbb" { pc := some PCState.init } sigOfferCandA =
      ({ pc := some { remoteDescription := some { sdpType := SDPType.offer, sdp := "their-offer" }
                      localDescription := some { sdpType := SDPType.answer, sdp := "answer-sdp" }
                      appliedCandidates := [cand0] } },
        [{ sdp := some { sdpType := SDPType.answer, sdp := "answer-sdp" }, ice := none
           uuid := "bbb" }]) ∧
    handleSignal engAll "aaa" { pc := some PCState.init } sigAnswerCandB =
      ({ pc := some { remoteDescription := some { sdpType := SDPType.answer, sdp := "their-answer" }
                      localDescription := none, appliedCandidates := [cand0] } }, []) :=
  ⟨c10_sdp_and_ice_both_processed.1 engAll "bbb" "aaa" { pc := some PCState.init } PCState.init
     { sdpType := SDPType.offer, sdp := "their-offer" } "answer-sdp" cand0 rfl rfl rfl rfl rfl rfl,
   c10_sdp_and_ice_both_processed.2 engAll "aaa" "bbb" { pc := some PCState.init } PCState.init
     { sdpType := SDPType.answer, sdp := "their-answer" } cand0 rfl rfl rfl rfl⟩

end GoWebrtc
